import Mathlib

/-!
Verification development for the 3d-model-studio backend.

The definitions below are a shallow embedding of the Python sources under
`src/backend/`:

* `meshy_client.py` — the remote-task poller `wait_for_task_completion`
  (modelled by `wait_loop` / `wait_for_task_completion` below, with the
  per-iteration status responses supplied by an oracle stream and discrete
  time advancing by `check_interval` at every sleep);
* `file_manager.py` — the asset downloader (`download_file`,
  `download_model_file`, `download_preview_image`, `download_all_formats`,
  `get_file_url_for_frontend`), over an explicit filesystem state and a
  network oracle;
* `database.py` — `save_model_to_history` (SQLite `INSERT OR REPLACE` on the
  `id` primary key, modelled as a keyed upsert on a table of rows);
* `main.py` — the two endpoint orchestrations `generate_preview_from_text`
  and `refine_text_model`, with the cache modelled as an associative store
  and randomness / time / hashing supplied as oracle parameters.

Modelling conventions: Python strings are `String`; Python `None`-able string
variables are `Option String`, with Python truthiness (`None` and `""` falsy)
captured by `falsy`/`pyOr`; dicts are association lists with unique keys;
`hashlib.md5` and `urlparse(url).path` are opaque stdlib functions passed in
as parameters of the model (`Stdlib`); floats are rationals; `random.*`
draws are oracle parameters; the poller's blocking loop is given explicit
fuel, with `none` marking a run that would not have finished within the fuel.
-/

/-! ### String helpers: Python `in` (substring containment) -/

/-- Boolean list-prefix test (used to decide substring containment the way
Python `needle in haystack` does). -/
def isPrefixB : List Char → List Char → Bool
  | [], _ => true
  | _ :: _, [] => false
  | a :: as, b :: bs => a == b && isPrefixB as bs

/-- Boolean substring containment on character lists. -/
def containsSub (needle : List Char) : List Char → Bool
  | [] => isPrefixB needle []
  | b :: rest => isPrefixB needle (b :: rest) || containsSub needle rest

/-- Python `needle in hay` on strings. -/
def strContains (hay needle : String) : Bool :=
  containsSub needle.data hay.data

/-! ### Remote task client / poller (`meshy_client.py`) -/

/-- Task-status payload returned by the provider's GET endpoint
(`get_task_status`): the JSON fields consumed by the backend.  A missing
JSON key is `none`. -/
structure TaskInfo where
  id : Option String
  status : Option String
  error : Option String
  model_urls : Option (List (String × String))
  thumbnail_url : Option String
  preview_url : Option String
  deriving Repr, DecidableEq

/-- One observation of `get_task_status`: either the parsed JSON payload, or
the message of the exception it raised (`获取任务状态失败: ...` for transport
and non-2xx failures). -/
inductive GetStatusResult where
  | ok (info : TaskInfo)
  | err (msg : String)
  deriving Repr, DecidableEq

/-- Outcome of `wait_for_task_completion`.  `success` returns the task info;
`raised` is an exception propagating out of the loop (a `任务失败: ...`
task-failure or a status-check error whose message contains that marker);
`timeout` is the `任务超时` exception, carrying the elapsed time at the
raise.  Each constructor also records how many `get_task_status` calls were
made. -/
inductive WaitOutcome where
  | success (info : TaskInfo) (calls : Nat)
  | raised (msg : String) (calls : Nat)
  | timeout (elapsed : Nat) (calls : Nat)
  deriving Repr, DecidableEq

/-- The marker substring the poller's exception handler re-raises on:
`if "任务失败" in str(e): raise`. -/
def taskFailedMarker : String := "任务失败"

/-- The poll loop of `meshy_client.wait_for_task_completion` (lines 140-182).
`resp i` is the behaviour of the `i`-th `get_task_status` call; time is
discrete, advancing by `interval` at each `time.sleep(check_interval)`;
`elapsed` is `time.time() - start_time`.  The `FAILED` branch raises
`任务失败: <error>` which is caught by the loop's own handler and re-raised
because it carries the marker; a status-check error is re-raised only when
its message contains the marker, otherwise it is logged and the loop sleeps
and retries.  `PENDING`, `IN_PROGRESS` and any unrecognized status all sleep
and retry.  `fuel` bounds the number of iterations modelled; `none` means
the fuel ran out before the loop finished. -/
def wait_loop (resp : Nat → GetStatusResult) (maxWait interval : Nat) :
    Nat → Nat → Nat → Nat → Option WaitOutcome
  | fuel, elapsed, i, calls =>
    if elapsed < maxWait then
      match fuel with
      | 0 => none
      | fuel' + 1 =>
        match resp i with
        | .ok info =>
          if info.status == some "SUCCEEDED" then
            some (.success info (calls + 1))
          else if info.status == some "FAILED" then
            let msg := taskFailedMarker ++ ": " ++ (info.error.getD "未知错误")
            if strContains msg taskFailedMarker then
              some (.raised msg (calls + 1))
            else
              wait_loop resp maxWait interval fuel' (elapsed + interval) (i + 1) (calls + 1)
          else
            wait_loop resp maxWait interval fuel' (elapsed + interval) (i + 1) (calls + 1)
        | .err msg =>
          if strContains msg taskFailedMarker then
            some (.raised msg (calls + 1))
          else
            wait_loop resp maxWait interval fuel' (elapsed + interval) (i + 1) (calls + 1)
    else
      some (.timeout elapsed calls)

/-- `wait_for_task_completion(task_id, max_wait_time=300, check_interval=10)`:
run the poll loop from a fresh start time. -/
def wait_for_task_completion (resp : Nat → GetStatusResult)
    (maxWait interval fuel : Nat) : Option WaitOutcome :=
  wait_loop resp maxWait interval fuel 0 0 0

/-- A status response that keeps the loop polling: a parsed payload whose
status is neither `SUCCEEDED` nor `FAILED` (this includes `PENDING`,
`IN_PROGRESS`, any unrecognized value and a missing status field). -/
def nonTerminalOk (r : GetStatusResult) : Bool :=
  match r with
  | .ok info => !(info.status == some "SUCCEEDED") && !(info.status == some "FAILED")
  | .err _ => false

/-- Timeout lemma for the poll loop: if every response is a non-terminal
status, the loop reaches the `任务超时` raise, with the elapsed time at the
raise below `maxWait + interval`. -/
theorem wait_loop_timeout (resp : Nat → GetStatusResult) (maxWait interval : Nat)
    (hint : 1 ≤ interval) (hnt : ∀ j, nonTerminalOk (resp j) = true) :
    ∀ fuel elapsed i calls, elapsed < maxWait + interval →
      maxWait + 1 ≤ fuel + elapsed →
      ∃ e c, wait_loop resp maxWait interval fuel elapsed i calls =
        some (.timeout e c) ∧ maxWait ≤ e ∧ e < maxWait + interval := by
  intro fuel
  induction fuel with
  | zero =>
    intro elapsed i calls hlt hfe
    simp only [Nat.zero_add] at hfe
    have hge : ¬ elapsed < maxWait := by omega
    refine ⟨elapsed, calls, ?_, by omega, hlt⟩
    rw [wait_loop]
    simp [hge]
  | succ fuel ih =>
    intro elapsed i calls hlt hfe
    by_cases hel : elapsed < maxWait
    · have h := hnt i
      rw [wait_loop]
      cases hresp : resp i with
      | ok info =>
        rw [hresp] at h
        simp only [nonTerminalOk, Bool.and_eq_true, Bool.not_eq_true'] at h
        have hrec := ih (elapsed + interval) (i + 1) (calls + 1)
          (by omega) (by omega)
        simp only [hel, if_true, h.1, h.2, if_false]
        exact hrec
      | err m =>
        rw [hresp] at h
        simp [nonTerminalOk] at h
    · refine ⟨elapsed, calls, ?_, by omega, hlt⟩
      rw [wait_loop]
      simp [hel]

/-- C6: for every sequence of provider status responses that never reaches a
terminal state (`SUCCEEDED` or `FAILED`), the poller terminates with a
timeout failure within `timeout_ceiling + poll_interval` time-units of
starting (bounded wait; the backend's defaults are 300 and 10).  `fuel`
merely bounds the modelled iterations; `maxWait + 1` iterations always
suffice when the interval is positive. -/
theorem poller_bounded_timeout (resp : Nat → GetStatusResult)
    (maxWait interval fuel : Nat) (hint : 1 ≤ interval)
    (hnt : ∀ j, nonTerminalOk (resp j) = true)
    (hfuel : maxWait + 1 ≤ fuel) :
    ∃ e c, wait_for_task_completion resp maxWait interval fuel =
      some (.timeout e c) ∧ e < maxWait + interval := by
  have h := wait_loop_timeout resp maxWait interval hint hnt fuel 0 0 0
    (by omega) (by omega)
  obtain ⟨e, c, heq, _, hub⟩ := h
  exact ⟨e, c, heq, hub⟩

/-- A perpetually `IN_PROGRESS` status payload. -/
def inProgressInfo : TaskInfo :=
  ⟨none, some "IN_PROGRESS", none, none, none, none⟩

/-- Witness for C6 at the backend's default configuration (ceiling 300,
interval 10): a provider that stays `IN_PROGRESS` forever makes the poller
raise the timeout before 310 time-units. -/
theorem poller_bounded_timeout_witness :
    ∃ e c, wait_for_task_completion (fun _ => .ok inProgressInfo) 300 10 301 =
      some (.timeout e c) ∧ e < 300 + 10 :=
  poller_bounded_timeout (fun _ => .ok inProgressInfo) 300 10 301 (by decide)
    (fun _ => by simp [nonTerminalOk, inProgressInfo]) (by decide)

/-- C7 counterexample: the claim says the poller never aborts on a transient
status-check error.  But the loop's handler re-raises any exception whose
message contains the marker `任务失败`; a transport error whose message
(`获取任务状态失败: <server-controlled text>`) happens to contain that marker
is re-raised on the very first poll — the loop aborts after one call instead
of polling on to the timeout ceiling. -/
theorem poller_aborts_on_marked_transient_error :
    wait_for_task_completion
      (fun _ => .err "获取任务状态失败: 500 Server Error: 任务失败 for url")
      300 10 301 =
    some (.raised "获取任务状态失败: 500 Server Error: 任务失败 for url" 1) := by
  rw [wait_for_task_completion, wait_loop]
  decide

/-- C7 (amended): while polling with time left on the clock, the loop
continues — sleeping the same fixed interval, the time counting toward the
timeout budget — on every unrecognized (non-terminal) status, and on every
transient status-check error whose message does not contain the failure
marker `任务失败`; a marker-carrying error message is instead re-raised. -/
theorem poller_continues_non_terminal (resp : Nat → GetStatusResult)
    (maxWait interval fuel elapsed i calls : Nat)
    (hel : elapsed < maxWait) :
    (∀ info, resp i = .ok info →
      (info.status == some "SUCCEEDED") = false →
      (info.status == some "FAILED") = false →
      wait_loop resp maxWait interval (fuel + 1) elapsed i calls =
        wait_loop resp maxWait interval fuel (elapsed + interval) (i + 1) (calls + 1)) ∧
    (∀ m, resp i = .err m →
      strContains m taskFailedMarker = false →
      wait_loop resp maxWait interval (fuel + 1) elapsed i calls =
        wait_loop resp maxWait interval fuel (elapsed + interval) (i + 1) (calls + 1)) ∧
    (∀ m, resp i = .err m →
      strContains m taskFailedMarker = true →
      wait_loop resp maxWait interval (fuel + 1) elapsed i calls =
        some (.raised m (calls + 1))) := by
  refine ⟨?_, ?_, ?_⟩
  · intro info hresp hs hf
    conv_lhs => rw [wait_loop]
    simp [hel, hresp, hs, hf]
  · intro m hresp hm
    conv_lhs => rw [wait_loop]
    simp [hel, hresp, hm]
  · intro m hresp hm
    conv_lhs => rw [wait_loop]
    simp [hel, hresp, hm]

/-- Witness for the amended C7: with an unrecognized status `"QUEUED"` at
poll 0 the loop takes another step rather than exiting, and a
marker-free transient error behaves the same way. -/
theorem poller_continues_non_terminal_witness :
    wait_loop (fun _ => .ok ⟨none, some "QUEUED", none, none, none, none⟩)
      300 10 31 0 0 0 =
    wait_loop (fun _ => .ok ⟨none, some "QUEUED", none, none, none, none⟩)
      300 10 30 10 1 1 :=
  (poller_continues_non_terminal
    (fun _ => .ok ⟨none, some "QUEUED", none, none, none, none⟩)
    300 10 30 0 0 0 (by decide)).1
    ⟨none, some "QUEUED", none, none, none, none⟩ rfl (by decide) (by decide)

/-! ### Association lists (Python dicts with unique keys) -/

/-- Lookup in an association list (Python `d[k]` / `k in d`). -/
def lookupAssoc (k : String) : List (String × α) → Option α
  | [] => none
  | p :: rest => if p.1 == k then some p.2 else lookupAssoc k rest

/-- Insert-or-replace in an association list (a dict/redis/SQLite keyed
`put`). -/
def putAssoc (k : String) (v : α) : List (String × α) → List (String × α)
  | [] => [(k, v)]
  | p :: rest => if p.1 == k then (k, v) :: rest else p :: putAssoc k v rest

/-! ### Asset retriever (`file_manager.py`) -/

/-- Opaque stdlib functions the file manager and the orchestrator use:
`hashlib.md5(s).hexdigest()` and `urlparse(url).path`. -/
structure Stdlib where
  md5hex : String → String
  urlpath : String → String

/-- Filesystem state: local path to the chunk list written there.  A file is
present exactly when its path has an entry; a partially written file is an
entry holding only the chunks delivered before the failure. -/
abbrev FS := List (String × List (List Nat))

/-- Behaviour of one `requests.get(url, stream=True)` download:
`connectError` is a failure before anything is written (connection error,
non-2xx `raise_for_status`, or the file failing to open); `body chunks
complete` delivers `chunks` into the open file, the iteration then either
finishing (`complete = true`) or raising mid-body (`complete = false`). -/
inductive NetResult where
  | connectError
  | body (chunks : List (List Nat)) (complete : Bool)
  deriving Repr, DecidableEq

/-- `file_manager.STORAGE_BASE` (modelled as a relative path). -/
def STORAGE_BASE : String := "storage"

/-- `file_manager.MODELS_DIR`. -/
def MODELS_DIR : String := "storage/models"

/-- `file_manager.PREVIEWS_DIR`. -/
def PREVIEWS_DIR : String := "storage/previews"

/-- The dot character, for splitting paths the way Python `split('.')`
does. -/
def dotC : Char := ('.')

/-- Accumulator recursion behind `splitOnDot`. -/
def splitOnDotAux : List Char → List Char → List String
  | [], acc => [String.mk acc.reverse]
  | c :: rest, acc =>
    if c == dotC then String.mk acc.reverse :: splitOnDotAux rest []
    else splitOnDotAux rest (c :: acc)

/-- Python `path.split('.')` (structural clone, so that concrete inputs
evaluate inside proofs). -/
def splitOnDot (s : String) : List String := splitOnDotAux s.data []

/-- Python `s.lower()` (character-wise, structural). -/
def lowerStr (s : String) : String := String.mk (s.data.map Char.toLower)

/-- Python `s[:n]` (structural). -/
def takeStr (s : String) (n : Nat) : String := String.mk (s.data.take n)

/-- Python `s[n:]` (structural). -/
def dropStr (s : String) (n : Nat) : String := String.mk (s.data.drop n)

/-- `file_manager.get_file_extension`: last dot-separated component of the
URL's path, lower-cased; `glb` when the path has no dot. -/
def get_file_extension (sl : Stdlib) (url : String) : String :=
  let path := sl.urlpath url
  match splitOnDot path with
  | [] => "glb"
  | [_] => "glb"
  | parts => lowerStr (parts.getLastD "")

/-- `file_manager.generate_filename`: `<prefix>_<md5(url)[:12]>.<ext>`. -/
def generate_filename (sl : Stdlib) (original_url : String) (pre : String) : String :=
  let url_hash := takeStr (sl.md5hex original_url) 12
  let extension := get_file_extension sl original_url
  if pre == "" then url_hash ++ "." ++ extension
  else pre ++ "_" ++ url_hash ++ "." ++ extension

/-- `file_manager.download_file(url, local_path)`: opens `local_path` for
writing and streams the body into it.  The write goes directly to the final
path — there is no temporary file and no cleanup: a mid-body failure leaves
the already-delivered chunks at `local_path` and returns `False`. -/
def download_file (net : NetResult) (local_path : String) (fs : FS) : Bool × FS :=
  match net with
  | .connectError => (false, fs)
  | .body chunks complete => (complete, putAssoc local_path chunks fs)

/-- `file_manager.download_model_file(model_url, model_id)`: derive the
target path under `MODELS_DIR`; return it immediately if a file already
exists there (cache-by-existence), otherwise download; `none` when the
download reported failure. -/
def download_model_file (sl : Stdlib) (net : String → NetResult)
    (model_url model_id : String) (fs : FS) : Option String × FS :=
  if model_url == "" then (none, fs)
  else
    let filename := generate_filename sl model_url ("model_" ++ model_id)
    let local_path := MODELS_DIR ++ "/" ++ filename
    if (lookupAssoc local_path fs).isSome then (some local_path, fs)
    else
      match download_file (net model_url) local_path fs with
      | (true, fs') => (some local_path, fs')
      | (false, fs') => (none, fs')

/-- `file_manager.download_preview_image(preview_url, model_id)`: same as
`download_model_file` but under `PREVIEWS_DIR` with a `preview_` prefix. -/
def download_preview_image (sl : Stdlib) (net : String → NetResult)
    (preview_url model_id : String) (fs : FS) : Option String × FS :=
  if preview_url == "" then (none, fs)
  else
    let filename := generate_filename sl preview_url ("preview_" ++ model_id)
    let local_path := PREVIEWS_DIR ++ "/" ++ filename
    if (lookupAssoc local_path fs).isSome then (some local_path, fs)
    else
      match download_file (net preview_url) local_path fs with
      | (true, fs') => (some local_path, fs')
      | (false, fs') => (none, fs')

/-- `file_manager.download_all_formats(download_urls, model_id)`: walk the
format→URL mapping in order; skip falsy URLs; reuse an existing file at the
derived path; otherwise download, recording the format only when its
download succeeded — a failed format is silently left out of the returned
mapping. -/
def download_all_formats (sl : Stdlib) (net : String → NetResult)
    (download_urls : List (String × String)) (model_id : String) (fs : FS) :
    List (String × String) × FS :=
  match download_urls with
  | [] => ([], fs)
  | (format_name, url) :: rest =>
    if url == "" then download_all_formats sl net rest model_id fs
    else
      let local_path := MODELS_DIR ++ "/" ++
        generate_filename sl url (format_name ++ "_" ++ model_id)
      if (lookupAssoc local_path fs).isSome then
        let r := download_all_formats sl net rest model_id fs
        ((format_name, local_path) :: r.1, r.2)
      else
        let d := download_file (net url) local_path fs
        if d.1 then
          let r := download_all_formats sl net rest model_id d.2
          ((format_name, local_path) :: r.1, r.2)
        else
          download_all_formats sl net rest model_id d.2

/-- Suffix of `path` relative to `STORAGE_BASE` (the `os.path.relpath`
computed by `get_file_url_for_frontend`; paths in this model are relative to
the backend directory, so this strips the leading `storage/`). -/
def relToStorage (path : String) : String :=
  if isPrefixB (STORAGE_BASE ++ "/").data path.data then dropStr path 8 else path

/-- `file_manager.get_file_url_for_frontend(local_path)`: empty string for a
falsy path or a path with no file present, otherwise the servable
`/api/files/...` URL. -/
def get_file_url_for_frontend (p : Option String) (fs : FS) : String :=
  match p with
  | none => ""
  | some path =>
    if path == "" then ""
    else if (lookupAssoc path fs).isSome then "/api/files/" ++ relToStorage path
    else ""

/-- Looking a key up right after writing it finds the written value. -/
theorem lookupAssoc_putAssoc_self (k : String) (v : α) (m : List (String × α)) :
    lookupAssoc k (putAssoc k v m) = some v := by
  induction m with
  | nil => simp [putAssoc, lookupAssoc]
  | cons p rest ih =>
    by_cases hp : (p.1 == k) = true
    · simp [putAssoc, hp, lookupAssoc]
    · simp [putAssoc, hp, lookupAssoc, ih]

/-- Stdlib instance used by concrete counterexamples: a fixed digest and a
`host/m.<ext>`-shaped URL path. -/
def cexStdlib : Stdlib :=
  ⟨fun _ => "aaaaaaaaaaaabbbb", fun url => dropStr url 8⟩

/-- The local target path `download_model_file` derives for the
counterexample URL `http://x/m.glb` with model id `t1`. -/
def cexPath1 : String :=
  MODELS_DIR ++ "/" ++ generate_filename cexStdlib "http://x/m.glb" ("model_" ++ "t1")

/-- C2 counterexample: a model-file fetch whose body fails after one chunk
leaves a partial file at the derived local target path — `download_file`
writes directly to the final path, so the failed call reports `none` yet the
partial chunks remain there, and the very next call for the same URL returns
that same path as if the download had completed (cache-by-existence). -/
theorem download_partial_file_left_behind :
    download_model_file cexStdlib (fun _ => .body [[1, 2]] false)
      "http://x/m.glb" "t1" [] =
      (none, [(cexPath1, [[1, 2]])]) ∧
    download_model_file cexStdlib (fun _ => .body [[1, 2]] false)
      "http://x/m.glb" "t1" [(cexPath1, [[1, 2]])] =
      (some cexPath1, [(cexPath1, [[1, 2]])]) := by
  have hurl : (("http://x/m.glb" : String) == "") = false := by decide
  constructor
  · simp only [download_model_file, hurl, Bool.false_eq_true, if_false,
      lookupAssoc, Option.isSome_none, download_file, putAssoc, cexPath1]
  · simp only [download_model_file, hurl, Bool.false_eq_true, if_false,
      cexPath1, lookupAssoc, beq_self_eq_true, if_true, Option.isSome_some]

/-- C2 (amended): the downloader neither writes to a temporary path nor
cleans up on failure.  A connection-stage failure writes nothing; but a
mid-body failure leaves the delivered chunks at the final derived target
path, and a subsequent call for the same URL then returns that path without
re-downloading, mistaking the partial file for a completed one. -/
theorem download_model_file_failure_behaviour (sl : Stdlib)
    (net : String → NetResult) (url model_id p : String) (fs : FS)
    (chunks : List (List Nat))
    (hurl : (url == "") = false)
    (hp : p = MODELS_DIR ++ "/" ++ generate_filename sl url ("model_" ++ model_id))
    (hfresh : (lookupAssoc p fs).isSome = false) :
    (net url = .connectError →
      download_model_file sl net url model_id fs = (none, fs)) ∧
    (net url = .body chunks false →
      download_model_file sl net url model_id fs = (none, putAssoc p chunks fs) ∧
      download_model_file sl net url model_id (putAssoc p chunks fs) =
        (some p, putAssoc p chunks fs)) := by
  constructor
  · intro hnet
    simp only [download_model_file, hurl, Bool.false_eq_true, if_false, ← hp,
      hfresh, hnet, download_file]
  · intro hnet
    constructor
    · simp only [download_model_file, hurl, Bool.false_eq_true, if_false, ← hp,
        hfresh, hnet, download_file]
    · simp only [download_model_file, hurl, Bool.false_eq_true, if_false, ← hp,
        lookupAssoc_putAssoc_self, Option.isSome_some, if_true]

/-- Witness for the amended C2 at a concrete URL, model id and network
trace. -/
theorem download_model_file_failure_behaviour_witness :
    download_model_file cexStdlib (fun _ => .body [[7]] false)
      "http://x/n.glb" "t2" [] =
      (none, putAssoc (MODELS_DIR ++ "/" ++
        generate_filename cexStdlib "http://x/n.glb" ("model_" ++ "t2")) [[7]] []) :=
  ((download_model_file_failure_behaviour cexStdlib (fun _ => .body [[7]] false)
    "http://x/n.glb" "t2"
    (MODELS_DIR ++ "/" ++ generate_filename cexStdlib "http://x/n.glb" ("model_" ++ "t2"))
    [] [[7]] (by decide) rfl (by simp [lookupAssoc])).2 rfl).1

/-! ### History store (`database.py`) -/

/-- One row of the `model_history` table (`database.init_database`).  Fields
the endpoints do not supply are `none`; `created_at` is `none` when left to
the database default. -/
structure HistoryRow where
  id : String
  input_type : String
  input_content : String
  complexity : Option String
  format : Option String
  stage : Option String
  model_url : Option String
  preview_url : Option String
  download_urls : List (String × Option String)
  quality_score : ℚ
  created_at : Option String
  local_model_path : Option String
  local_preview_path : Option String
  deriving Repr, DecidableEq

/-- `database.save_model_to_history`: an SQLite `INSERT OR REPLACE` on the
`id` primary key — when a row with the same id exists it is replaced,
otherwise the new row is appended. -/
def save_model_to_history (tbl : List HistoryRow) (row : HistoryRow) : List HistoryRow :=
  if tbl.any (fun r => r.id == row.id) then
    tbl.map (fun r => if r.id == row.id then row else r)
  else
    tbl ++ [row]

/-- Row lookup by primary key (first match). -/
def findById : List HistoryRow → String → Option HistoryRow
  | [], _ => none
  | r :: rest, i => if r.id == i then some r else findById rest i

/-- A first write with id `a`. -/
def rowA1 : HistoryRow :=
  ⟨"a", "text", "first prompt", none, none, some "preview",
   some "/api/models/x.glb", none, [], 0, none, none, none⟩

/-- A second, different write carrying the same id `a`. -/
def rowA2 : HistoryRow :=
  ⟨"a", "text", "second prompt", none, none, some "refined",
   some "/api/models/y.glb", none, [], 1, none, none, none⟩

/-- C10 counterexample: history is not append-only.  Writing a second record
that carries the same id as an earlier one replaces the earlier record's
stored content (`INSERT OR REPLACE` on the `id` primary key): after the two
writes the table holds only the second record. -/
theorem history_second_write_replaces_first :
    save_model_to_history (save_model_to_history [] rowA1) rowA2 = [rowA2] ∧
    rowA1 ≠ rowA2 := by
  constructor
  · simp [save_model_to_history, rowA1, rowA2]
  · intro h
    exact absurd (congrArg HistoryRow.input_content h) (by decide)

/-- First-match replacement: if some row carries the written id, replacing
every such row makes the lookup of that id return the new row. -/
theorem findById_replace (tbl : List HistoryRow) (row : HistoryRow)
    (h : tbl.any (fun r => r.id == row.id) = true) :
    findById (tbl.map (fun r => if r.id == row.id then row else r)) row.id = some row := by
  induction tbl with
  | nil => simp at h
  | cons x rest ih =>
    by_cases hx : (x.id == row.id) = true
    · simp [hx, findById]
    · simp only [List.any_cons, hx, Bool.false_or] at h
      rw [List.map_cons, if_neg hx]
      simp only [findById]
      rw [if_neg hx]
      exact ih h

/-- Appending a row whose id is fresh makes the lookup of that id return the
appended row. -/
theorem findById_append_fresh (tbl : List HistoryRow) (row : HistoryRow)
    (h : tbl.any (fun r => r.id == row.id) = false) :
    findById (tbl ++ [row]) row.id = some row := by
  induction tbl with
  | nil => simp [findById]
  | cons x rest ih =>
    simp only [List.any_cons, Bool.or_eq_false_iff] at h
    simp only [List.cons_append, findById, h.1, Bool.false_eq_true, if_false]
    exact ih h.2

/-- C10 (amended): `save_model_to_history` is a keyed upsert, not an append.
A later write never modifies records carrying a different id, and a lookup
of the written id afterwards returns exactly the new row — so a write that
reuses an existing id replaces that record's stored content rather than
preserving it. -/
theorem history_upsert_semantics (tbl : List HistoryRow) (row r : HistoryRow)
    (hne : (r.id == row.id) = false) (hmem : r ∈ tbl) :
    r ∈ save_model_to_history tbl row ∧
    findById (save_model_to_history tbl row) row.id = some row := by
  by_cases hany : (tbl.any (fun x => x.id == row.id)) = true
  · constructor
    · simp only [save_model_to_history, hany, if_true]
      exact List.mem_map.mpr ⟨r, hmem, by simp [hne]⟩
    · simp only [save_model_to_history, hany, if_true]
      exact findById_replace tbl row hany
  · rw [Bool.not_eq_true] at hany
    constructor
    · simp only [save_model_to_history, hany, Bool.false_eq_true, if_false]
      exact List.mem_append_left _ hmem
    · simp only [save_model_to_history, hany, Bool.false_eq_true, if_false]
      exact findById_append_fresh tbl row hany

/-- A record with a distinct id `b`. -/
def rowB : HistoryRow :=
  ⟨"b", "text", "other prompt", none, none, some "preview",
   some "/api/models/z.glb", none, [], 0, none, none, none⟩

/-- Witness for the amended C10: on a table holding the id-`b` record, an
id-`a` write keeps the `b` record and installs the `a` row. -/
theorem history_upsert_semantics_witness :
    rowB ∈ save_model_to_history [rowB] rowA2 ∧
    findById (save_model_to_history [rowB] rowA2) rowA2.id = some rowA2 :=
  history_upsert_semantics [rowB] rowA2 rowB (by decide) (by decide)

/-! ### Refine display-format selection (`main.py` lines 348-357) -/

/-- The canonical display URL chosen by `refine_text_model` from the
provider's `model_urls` mapping: `glb` if present, else `gltf` if present —
and nothing otherwise (the code has no further fallback). -/
def select_display_url (model_urls : List (String × String)) : Option String :=
  match lookupAssoc "glb" model_urls with
  | some u => some u
  | none => lookupAssoc "gltf" model_urls

/-- A key not bound in an association list looks up to `none`. -/
theorem lookupAssoc_eq_none_of_not_mem (k : String) (m : List (String × α))
    (h : ¬ k ∈ m.map Prod.fst) : lookupAssoc k m = none := by
  induction m with
  | nil => rfl
  | cons p rest ih =>
    simp only [List.map_cons, List.mem_cons] at h
    push_neg at h
    simp only [lookupAssoc]
    rw [if_neg]
    · exact ih h.2
    · intro hc
      rw [beq_iff_eq] at hc
      exact h.1 hc.symm

/-- With duplicate-free keys, a bound pair determines the lookup result. -/
theorem lookupAssoc_eq_some_of_mem (k : String) (v : α) (m : List (String × α))
    (hnd : (m.map Prod.fst).Nodup) (hmem : (k, v) ∈ m) :
    lookupAssoc k m = some v := by
  induction m with
  | nil => cases hmem
  | cons p rest ih =>
    rw [List.map_cons, List.nodup_cons] at hnd
    rcases List.mem_cons.mp hmem with heq | htl
    · subst heq
      simp [lookupAssoc]
    · have hk : k ∈ rest.map Prod.fst :=
        List.mem_map.mpr ⟨(k, v), htl, rfl⟩
      have hne : (p.1 == k) = false := by
        rw [beq_eq_false_iff_ne]
        intro hc
        exact hnd.1 (hc ▸ hk)
      simp only [lookupAssoc, hne, Bool.false_eq_true, if_false]
      exact ih hnd.2 htl

/-- C4 counterexample: a non-empty `model_urls` mapping that offers only an
`obj` URL yields no display model URL at all — the refine path prefers `glb`
then `gltf` but has no first-available fallback, contradicting the claim
that a display URL is selected whenever the mapping is non-empty. -/
theorem refine_no_display_url_for_obj_only :
    select_display_url [("obj", "http://x/m.obj")] = none ∧
    ([("obj", "http://x/m.obj")] : List (String × String)) ≠ [] := by
  constructor
  · decide
  · decide

/-- C4 (amended): the canonical display URL is the `glb` URL if present,
else the `gltf` URL if present; when neither key is bound — even if other
formats are available — no display model URL is selected. -/
theorem select_display_url_selection (urls : List (String × String)) (u v : String)
    (hnd : (urls.map Prod.fst).Nodup) :
    (("glb", u) ∈ urls → select_display_url urls = some u) ∧
    (¬ "glb" ∈ urls.map Prod.fst → ("gltf", v) ∈ urls →
      select_display_url urls = some v) ∧
    (¬ "glb" ∈ urls.map Prod.fst → ¬ "gltf" ∈ urls.map Prod.fst →
      select_display_url urls = none) := by
  refine ⟨?_, ?_, ?_⟩
  · intro hmem
    rw [select_display_url, lookupAssoc_eq_some_of_mem "glb" u urls hnd hmem]
  · intro hglb hmem
    rw [select_display_url, lookupAssoc_eq_none_of_not_mem "glb" urls hglb,
      lookupAssoc_eq_some_of_mem "gltf" v urls hnd hmem]
  · intro hglb hgltf
    rw [select_display_url, lookupAssoc_eq_none_of_not_mem "glb" urls hglb,
      lookupAssoc_eq_none_of_not_mem "gltf" urls hgltf]

/-- Witness for the amended C4: a `gltf`-plus-`obj` mapping selects the
`gltf` URL. -/
theorem select_display_url_selection_witness :
    select_display_url [("gltf", "http://x/m.gltf"), ("obj", "http://x/m.obj")] =
      some "http://x/m.gltf" :=
  (select_display_url_selection
    [("gltf", "http://x/m.gltf"), ("obj", "http://x/m.obj")]
    "u" "http://x/m.gltf" (by decide)).2.1 (by decide) (by decide)

/-! ### Refine download-URL assembly (`file_manager.download_all_formats` and
`main.py` lines 385-394, 401) -/

/-- Python `a or b` on the dict level: the left mapping unless it is empty
(`local_download_urls or download_urls`). -/
def pyOrList (a b : List (String × String)) : List (String × String) :=
  if a.isEmpty then b else a

/-- The local target path `download_all_formats` derives for one
format→URL pair. -/
def formatPath (sl : Stdlib) (model_id : String) (q : String × String) : String :=
  MODELS_DIR ++ "/" ++ generate_filename sl q.2 (q.1 ++ "_" ++ model_id)

/-- Whether one modelled download reaches the end of its body. -/
def netSucceeds : NetResult → Bool
  | .body _ true => true
  | _ => false

/-- The `download_urls` handling of `refine_text_model`: when the mapping is
non-empty, run the batch download and map each downloaded local path to its
servable frontend URL (the state after the whole batch). -/
def refine_download_urls (sl : Stdlib) (net : String → NetResult)
    (download_urls : List (String × String)) (model_id : String) (fs : FS) :
    List (String × String) × FS :=
  if download_urls.isEmpty then ([], fs)
  else
    let r := download_all_formats sl net download_urls model_id fs
    (r.1.map (fun q => (q.1, get_file_url_for_frontend (some q.2) r.2)), r.2)

/-- Writing one key leaves every other key's lookup unchanged. -/
theorem lookupAssoc_putAssoc_ne (k k' : String) (v : α) (m : List (String × α))
    (h : (k' == k) = false) :
    lookupAssoc k' (putAssoc k v m) = lookupAssoc k' m := by
  have h' : (k == k') = false := by
    rw [beq_eq_false_iff_ne] at h ⊢
    exact fun hc => h hc.symm
  induction m with
  | nil =>
    simp only [putAssoc, lookupAssoc, h', Bool.false_eq_true, if_false]
  | cons p rest ih =>
    by_cases hp : (p.1 == k) = true
    · have hpk : p.1 = k := by rwa [beq_iff_eq] at hp
      have hpk' : (p.1 == k') = false := by
        rw [beq_eq_false_iff_ne] at h' ⊢
        rw [hpk]
        exact h'
      simp only [putAssoc, hp, if_true, lookupAssoc, h', Bool.false_eq_true,
        if_false, hpk']
    · simp only [putAssoc, hp, Bool.false_eq_true, if_false, lookupAssoc]
      by_cases hpk' : (p.1 == k') = true
      · simp [hpk']
      · simp only [hpk', Bool.false_eq_true, if_false]
        exact ih

/-- Per-format characterization of `download_all_formats`: when the derived
target paths are pairwise distinct and none of them pre-exists, the returned
mapping holds exactly the formats whose URL is non-empty and whose download
ran to completion, each at its derived local path — a failed format is
dropped, and an earlier failure never prevents a later format from being
fetched. -/
theorem download_all_formats_characterization (sl : Stdlib)
    (net : String → NetResult) (model_id : String) :
    ∀ (urls : List (String × String)) (fs : FS),
      (urls.map (formatPath sl model_id)).Nodup →
      (∀ q ∈ urls, (lookupAssoc (formatPath sl model_id q) fs).isSome = false) →
      (download_all_formats sl net urls model_id fs).1 =
        urls.filterMap (fun q =>
          if q.2 == "" then none
          else if netSucceeds (net q.2) then some (q.1, formatPath sl model_id q)
          else none) := by
  intro urls
  induction urls with
  | nil => intro fs _ _; rfl
  | cons q rest ih =>
    intro fs hnd hfresh
    obtain ⟨fmt, url⟩ := q
    rw [List.map_cons, List.nodup_cons] at hnd
    have hfq := hfresh (fmt, url) (List.mem_cons_self _ _)
    have hfresh_rest : ∀ r ∈ rest, (lookupAssoc (formatPath sl model_id r) fs).isSome = false :=
      fun r hr => hfresh r (List.mem_cons_of_mem _ hr)
    have hpath_ne : ∀ r ∈ rest,
        (formatPath sl model_id r == formatPath sl model_id (fmt, url)) = false := by
      intro r hr
      rw [beq_eq_false_iff_ne]
      intro hc
      exact hnd.1 (hc ▸ List.mem_map.mpr ⟨r, hr, rfl⟩)
    by_cases hu : (url == "") = true
    · rw [List.filterMap_cons]
      simp only [hu, if_true]
      rw [download_all_formats]
      simp only [hu, if_true]
      exact ih fs hnd.2 hfresh_rest
    · have hkey : formatPath sl model_id (fmt, url) =
          MODELS_DIR ++ "/" ++ generate_filename sl url (fmt ++ "_" ++ model_id) := rfl
      have hfq' : (lookupAssoc (MODELS_DIR ++ "/" ++
          generate_filename sl url (fmt ++ "_" ++ model_id)) fs).isSome = false := hfq
      rw [List.filterMap_cons]
      simp only [hu, Bool.false_eq_true, if_false]
      rw [download_all_formats]
      simp only [hu, Bool.false_eq_true, if_false, hfq']
      cases hnet : net url with
      | connectError =>
        simp only [netSucceeds, download_file, Bool.false_eq_true, if_false]
        exact ih fs hnd.2 hfresh_rest
      | body chunks complete =>
        cases complete with
        | true =>
          simp only [netSucceeds, download_file, if_true]
          have hfresh1 : ∀ r ∈ rest,
              (lookupAssoc (formatPath sl model_id r)
                (putAssoc (MODELS_DIR ++ "/" ++
                  generate_filename sl url (fmt ++ "_" ++ model_id)) chunks fs)).isSome = false := by
            intro r hr
            rw [← hkey, lookupAssoc_putAssoc_ne _ _ _ _ (hpath_ne r hr)]
            exact hfresh_rest r hr
          rw [ih (putAssoc (MODELS_DIR ++ "/" ++
            generate_filename sl url (fmt ++ "_" ++ model_id)) chunks fs) hnd.2 hfresh1]
          rfl
        | false =>
          simp only [netSucceeds, download_file, Bool.false_eq_true, if_false]
          have hfresh1 : ∀ r ∈ rest,
              (lookupAssoc (formatPath sl model_id r)
                (putAssoc (MODELS_DIR ++ "/" ++
                  generate_filename sl url (fmt ++ "_" ++ model_id)) chunks fs)).isSome = false := by
            intro r hr
            rw [← hkey, lookupAssoc_putAssoc_ne _ _ _ _ (hpath_ne r hr)]
            exact hfresh_rest r hr
          exact ih _ hnd.2 hfresh1

/-- The format→URL mapping of the C3 counterexample: a `glb` and an `obj`
entry. -/
def cexUrls : List (String × String) :=
  [("glb", "http://x/m.glb"), ("obj", "http://x/m.obj")]

/-- Network behaviour of the C3 counterexample: the `glb` download completes,
the `obj` download fails to connect. -/
def cexNet3 : String → NetResult :=
  fun url => if url == "http://x/m.glb" then .body [[1]] true else .connectError

/-- C3 counterexample: with a two-format mapping where only the `obj` fetch
fails, the assembled refine `download_urls` (the batch result, falling back
to the remote mapping only when it is empty) has no `obj` entry at all — the
failed format is dropped rather than degraded to its original remote URL,
while the `glb` entry is present. -/
theorem refine_drops_failed_format :
    lookupAssoc "obj"
      (pyOrList (refine_download_urls cexStdlib cexNet3 cexUrls "r1" []).1 cexUrls) = none ∧
    lookupAssoc "obj" cexUrls = some "http://x/m.obj" ∧
    (lookupAssoc "glb"
      (pyOrList (refine_download_urls cexStdlib cexNet3 cexUrls "r1" []).1 cexUrls)).isSome = true := by
  refine ⟨?_, ?_, ?_⟩ <;> decide

/-- C3 (amended): in refine result assembly, a format appears in the batch
download mapping exactly when its URL is non-empty and its fetch ran to
completion — each such entry a local reference, each failed format dropped,
no failure aborting the rest of the batch — and the returned `download_urls`
is that mapping (sent through the frontend URL translation) unless it is
empty, in which case the entire original remote mapping is used instead. -/
theorem refine_download_urls_assembly (sl : Stdlib) (net : String → NetResult)
    (model_id : String) (urls : List (String × String)) (fs : FS)
    (hne : urls ≠ [])
    (hnd : (urls.map (formatPath sl model_id)).Nodup)
    (hfresh : ∀ q ∈ urls, (lookupAssoc (formatPath sl model_id q) fs).isSome = false) :
    (download_all_formats sl net urls model_id fs).1 =
      urls.filterMap (fun q =>
        if q.2 == "" then none
        else if netSucceeds (net q.2) then some (q.1, formatPath sl model_id q)
        else none) ∧
    (refine_download_urls sl net urls model_id fs).1 =
      (download_all_formats sl net urls model_id fs).1.map
        (fun q => (q.1, get_file_url_for_frontend (some q.2)
          (download_all_formats sl net urls model_id fs).2)) ∧
    (∀ lp : List (String × String), lp ≠ [] → pyOrList lp urls = lp) ∧
    pyOrList [] urls = urls := by
  refine ⟨download_all_formats_characterization sl net model_id urls fs hnd hfresh,
    ?_, ?_, rfl⟩
  · cases urls with
    | nil => exact absurd rfl hne
    | cons q rest => rfl
  · intro lp hlp
    cases lp with
    | nil => exact absurd rfl hlp
    | cons q rest => rfl

/-- Witness for the amended C3 at the concrete two-format mapping: the batch
result is exactly the filter of the completed fetches. -/
theorem refine_download_urls_assembly_witness :
    (download_all_formats cexStdlib cexNet3 cexUrls "r1" []).1 =
      cexUrls.filterMap (fun q =>
        if q.2 == "" then none
        else if netSucceeds (cexNet3 q.2) then
          some (q.1, formatPath cexStdlib "r1" q)
        else none) :=
  (refine_download_urls_assembly cexStdlib cexNet3 "r1" cexUrls []
    (by decide) (by decide) (by decide)).1

/-! ### Orchestrator (`main.py`) -/

/-- Python truthiness of a `None`-able string: `None` and `""` are falsy. -/
def falsy : Option String → Bool
  | none => true
  | some s => s == ""

/-- Python `a or b` on `None`-able strings. -/
def pyOr (a b : Option String) : Option String :=
  if falsy a then b else a

/-- Python 3 bankers' rounding to an integer (round-half-to-even), on
rationals. -/
def roundHalfEven (q : ℚ) : ℤ :=
  let f := ⌊q⌋
  let r := q - f
  if r < 1/2 then f
  else if 1/2 < r then f + 1
  else if f % 2 = 0 then f else f + 1

/-- Python `round(q, 2)`. -/
def round2 (q : ℚ) : ℚ := (roundHalfEven (q * 100) : ℚ) / 100

/-- The credential check `meshy_client.api_key and meshy_client.api_key !=
"your_meshy_api_key_here"` (`None` and `""` are falsy). -/
def validKey : Option String → Bool
  | none => false
  | some s => !(s == "") && !(s == "your_meshy_api_key_here")

/-- `main.get_cache_key(content, input_type)`:
`"model_cache:" + md5(f"{input_type}:{content}")`. -/
def get_cache_key (md5hex : String → String) (content input_type : String) : String :=
  "model_cache:" ++ md5hex (input_type ++ ":" ++ content)

/-- Result of `main.simulate_3d_generation`. -/
structure SimResult where
  model_id : String
  model_url : String
  preview_url : String
  quality_score : ℚ
  deriving Repr, DecidableEq

/-- Randomness and environment consumed by the simulation generator:
the `random.uniform(0.7, 0.95)` draw, the `models` directory listing (empty
when the directory is missing), the index drawn by `random.choice`, and
`datetime.now().isoformat()`. -/
structure SimOracle where
  uniform : ℚ
  listing : List String
  choiceIdx : Nat
  nowIso : String

/-- `main.simulate_3d_generation(input_content, input_type)`: fabricate a
model id from a hash of the content and the current time, draw a quality
score from [0.7, 0.95] (rounded to 2 places), and pick a random existing
`.obj`/`.glb` model file — or a deterministic `/api/models/<id>.glb` URL
when none exist.  `random.choice` is modelled by indexing with the oracle's
draw modulo the list length. -/
def simulate_3d_generation (md5hex : String → String) (o : SimOracle)
    (input_content : String) : SimResult :=
  let model_id := takeStr (md5hex (input_content ++ ":" ++ o.nowIso)) 12
  let quality_score := round2 o.uniform
  let available := o.listing.filter (fun f => f.endsWith ".obj" || f.endsWith ".glb")
  let model_url :=
    if available.isEmpty then "/api/models/" ++ model_id ++ ".glb"
    else "/api/models/" ++ available.getD (o.choiceIdx % available.length) ""
  ⟨model_id, model_url, "/api/previews/" ++ model_id ++ ".jpg", quality_score⟩

/-- `main.PreviewResponse`. -/
structure PreviewResponse where
  success : Bool
  task_id : String
  message : String
  preview_url : Option String
  thumbnail_url : Option String
  deriving Repr, DecidableEq

/-- The dict `generate_preview_from_text` stores in the cache:
`{"task_id", "model_url", "preview_url"}`. -/
structure PrevCache where
  task_id : String
  model_url : Option String
  preview_url : Option String
  deriving Repr, DecidableEq

/-- The refine result dict (also what `refine_text_model` caches, and the
shape of `main.GenerateResponse`). -/
structure GenerateResponse where
  success : Bool
  model_id : String
  model_url : Option String
  preview_url : Option String
  download_urls : List (String × String)
  message : String
  quality_score : ℚ
  stage : String
  deriving Repr, DecidableEq

/-- Outcome of one endpoint call: a response, or a raised `HTTPException`
with its status code and detail. -/
inductive EndpointResult (α : Type) where
  | ok (resp : α)
  | httpErr (code : Nat) (detail : String)
  deriving Repr, DecidableEq

/-- Mutable state touched by the preview endpoint: the cache store (one
key-value store standing for redis / memory / SQLite cache), the history
table, the local filesystem, and a ghost counter of provider HTTP calls. -/
structure StP where
  cache : List (String × PrevCache)
  history : List HistoryRow
  fs : FS
  calls : Nat
  deriving Repr, DecidableEq

/-- Mutable state touched by the refine endpoint. -/
structure StR where
  cache : List (String × GenerateResponse)
  history : List HistoryRow
  fs : FS
  calls : Nat
  deriving Repr, DecidableEq

/-- Provider-facing behaviour for one preview request: the configured
credential, the outcome of `create_preview_task` (task id, or the message of
the exception it raised), the status stream the poller will observe, the
`random.randint(1000, 9999)` draw, and the simulation oracle. -/
structure PreviewEnv where
  apiKey : Option String
  create : Except String String
  resp : Nat → GetStatusResult
  randNum : Nat
  sim : SimOracle

/-- Provider-facing behaviour for one refine request: credential,
`create_refine_task` outcome, status stream, and the
`random.uniform(0.85, 0.98)` draw. -/
structure RefineEnv where
  apiKey : Option String
  create : Except String String
  resp : Nat → GetStatusResult
  uniform : ℚ

/-- `main.generate_preview_from_text` (lines 173-316): check the cache;
with a valid credential create a preview task, poll it, download the glb and
thumbnail (each falling back to the remote URL via Python `or` when the
local reference is empty), cache, record history and respond — with any
exception from the provider pipeline surfaced as an HTTP 500
`预览生成失败` error; without a valid credential run the local simulation
generator instead.  `complexity` only shapes the provider request payload,
which the `create` oracle already accounts for.  `none` marks a run whose
poll loop outran the given fuel. -/
def generate_preview_from_text (sl : Stdlib) (net : String → NetResult)
    (env : PreviewEnv) (text _complexity : String) (fuel : Nat) (st : StP) :
    Option (EndpointResult PreviewResponse × StP) :=
  let cache_key := get_cache_key sl.md5hex text "text_preview"
  match lookupAssoc cache_key st.cache with
  | some c =>
    some (.ok ⟨true, c.task_id, "预览生成成功（来自缓存）", c.preview_url, none⟩, st)
  | none =>
    if validKey env.apiKey then
      match env.create with
      | .error m =>
        some (.httpErr 500 ("预览生成失败: " ++ m),
          ⟨st.cache, st.history, st.fs, st.calls + 1⟩)
      | .ok task_id =>
        match wait_loop env.resp 300 10 fuel 0 0 0 with
        | none => none
        | some (.raised m c) =>
          some (.httpErr 500 ("预览生成失败: " ++ m),
            ⟨st.cache, st.history, st.fs, st.calls + 1 + c⟩)
        | some (.timeout _ c) =>
          some (.httpErr 500 ("预览生成失败: 任务超时: " ++ task_id),
            ⟨st.cache, st.history, st.fs, st.calls + 1 + c⟩)
        | some (.success info c) =>
          let model_url : Option String :=
            match info.model_urls with
            | none => none
            | some urls => lookupAssoc "glb" urls
          let preview_url : Option String := info.thumbnail_url
          let mres :=
            if falsy model_url then ((none : Option String), st.fs)
            else
              let d := download_model_file sl net (model_url.getD "") task_id st.fs
              (some (get_file_url_for_frontend d.1 d.2), d.2)
          let pres :=
            if falsy preview_url then ((none : Option String), mres.2)
            else
              let d := download_preview_image sl net (preview_url.getD "") task_id mres.2
              (some (get_file_url_for_frontend d.1 d.2), d.2)
          let r_model := pyOr mres.1 model_url
          let r_preview := pyOr pres.1 preview_url
          let row : HistoryRow :=
            ⟨task_id, "text", text, none, none, some "preview",
             pyOr mres.1 r_model, pyOr pres.1 r_preview,
             [("glb", pyOr mres.1 r_model)], (0.8 : ℚ), none, none, none⟩
          some (.ok ⟨true, task_id, "预览生成成功", r_model, r_preview⟩,
            ⟨putAssoc cache_key ⟨task_id, r_model, r_preview⟩ st.cache,
             save_model_to_history st.history row, pres.2, st.calls + 1 + c⟩)
    else
      let task_id := "preview_" ++ toString env.randNum
      let s := simulate_3d_generation sl.md5hex env.sim text
      let row : HistoryRow :=
        ⟨task_id, "text", text, none, none, some "preview",
         some s.model_url, some s.preview_url, [("glb", some s.model_url)],
         s.quality_score, none, none, none⟩
      some (.ok ⟨true, task_id, "预览生成成功（模拟）", some s.model_url, some s.preview_url⟩,
        ⟨putAssoc cache_key ⟨task_id, some s.model_url, some s.preview_url⟩ st.cache,
         save_model_to_history st.history row, st.fs, st.calls⟩)

/-- `main.refine_text_model` (lines 318-465): check the cache; with a valid
credential create a refine task, poll it, pick the display URL (glb, else
gltf), collect the full format→URL mapping, download the display model, the
thumbnail and every format (the batch falling back to the remote mapping
only when empty, each single asset via Python `or`), cache, record history
and respond — any provider exception surfacing as an HTTP 500
`精细化失败` error; without a valid credential fabricate the deterministic
simulated result set. -/
def refine_text_model (sl : Stdlib) (net : String → NetResult)
    (env : RefineEnv) (task_id : String) (fuel : Nat) (st : StR) :
    Option (EndpointResult GenerateResponse × StR) :=
  let cache_key := get_cache_key sl.md5hex task_id "text_refine"
  match lookupAssoc cache_key st.cache with
  | some c => some (.ok c, st)
  | none =>
    if validKey env.apiKey then
      match env.create with
      | .error m =>
        some (.httpErr 500 ("精细化失败: " ++ m),
          ⟨st.cache, st.history, st.fs, st.calls + 1⟩)
      | .ok refine_task_id =>
        match wait_loop env.resp 300 10 fuel 0 0 0 with
        | none => none
        | some (.raised m c) =>
          some (.httpErr 500 ("精细化失败: " ++ m),
            ⟨st.cache, st.history, st.fs, st.calls + 1 + c⟩)
        | some (.timeout _ c) =>
          some (.httpErr 500 ("精细化失败: 任务超时: " ++ refine_task_id),
            ⟨st.cache, st.history, st.fs, st.calls + 1 + c⟩)
        | some (.success info c) =>
          let model_url : Option String :=
            match info.model_urls with
            | none => none
            | some urls => select_display_url urls
          let download_urls : List (String × String) := info.model_urls.getD []
          let preview_url : Option String :=
            match info.thumbnail_url with
            | some t => some t
            | none => info.preview_url
          let mres :=
            if falsy model_url then ((none : Option String), st.fs)
            else
              let d := download_model_file sl net (model_url.getD "") refine_task_id st.fs
              (some (get_file_url_for_frontend d.1 d.2), d.2)
          let pres :=
            if falsy preview_url then ((none : Option String), mres.2)
            else
              let d := download_preview_image sl net (preview_url.getD "") refine_task_id mres.2
              (some (get_file_url_for_frontend d.1 d.2), d.2)
          let dres := refine_download_urls sl net download_urls refine_task_id pres.2
          let model_id := info.id.getD refine_task_id
          let result : GenerateResponse :=
            ⟨true, model_id, pyOr mres.1 model_url, pyOr pres.1 preview_url,
             pyOrList dres.1 download_urls, "精细化完成", env.uniform, "refined"⟩
          let row : HistoryRow :=
            ⟨model_id, "text", "refined_" ++ task_id, none, none, some "refined",
             result.model_url, result.preview_url,
             result.download_urls.map (fun q => (q.1, some q.2)),
             result.quality_score, none, none, none⟩
          some (.ok result,
            ⟨putAssoc cache_key result st.cache,
             save_model_to_history st.history row, dres.2, st.calls + 1 + c⟩)
    else
      let base := "http://localhost:8000/api/files/models/refined_" ++ task_id
      let result : GenerateResponse :=
        ⟨true, "refined_" ++ task_id, some (base ++ ".glb"),
         some ("http://localhost:8000/api/files/previews/refined_" ++ task_id ++ ".jpg"),
         [("glb", base ++ ".glb"), ("obj", base ++ ".obj"),
          ("stl", base ++ ".stl"), ("fbx", base ++ ".fbx")],
         "精细化完成（模拟）", env.uniform, "refined"⟩
      let row : HistoryRow :=
        ⟨result.model_id, "text", "refined_" ++ task_id, none, none, some "refined",
         result.model_url, result.preview_url,
         result.download_urls.map (fun q => (q.1, some q.2)),
         result.quality_score, none, none, none⟩
      some (.ok result,
        ⟨putAssoc cache_key result st.cache,
         save_model_to_history st.history row, st.fs, st.calls⟩)

/-- Bankers' rounding to two places keeps a draw inside [0.70, 0.95]. -/
theorem round2_bounds (q : ℚ) (hlo : 7/10 ≤ q) (hhi : q ≤ 19/20) :
    7/10 ≤ round2 q ∧ round2 q ≤ 19/20 := by
  have hx70 : (70 : ℚ) ≤ q * 100 := by linarith
  have hx95 : q * 100 ≤ 95 := by linarith
  have hfl : (70 : ℤ) ≤ ⌊q * 100⌋ := by
    apply Int.le_floor.mpr
    exact_mod_cast hx70
  have hfu : (⌊q * 100⌋ : ℚ) ≤ 95 := le_trans (Int.floor_le _) hx95
  have hfu' : ⌊q * 100⌋ ≤ 95 := by exact_mod_cast hfu
  have hplus : ¬ (q * 100 - ⌊q * 100⌋ < 1/2) → ⌊q * 100⌋ + 1 ≤ 95 := by
    intro h1
    have hr : (1 : ℚ)/2 ≤ q * 100 - ⌊q * 100⌋ := not_lt.mp h1
    have hfq : (⌊q * 100⌋ : ℚ) ≤ q * 100 - 1/2 := by linarith
    have hlt : ((⌊q * 100⌋ + 1 : ℤ) : ℚ) < 96 := by push_cast; linarith
    have : ⌊q * 100⌋ + 1 < 96 := by exact_mod_cast hlt
    omega
  have hR : (70 : ℤ) ≤ roundHalfEven (q * 100) ∧ roundHalfEven (q * 100) ≤ 95 := by
    simp only [roundHalfEven]
    split_ifs with h1 h2 h3
    · exact ⟨hfl, hfu'⟩
    · exact ⟨by omega, hplus h1⟩
    · exact ⟨hfl, hfu'⟩
    · exact ⟨by omega, hplus h1⟩
  have h70 : (70 : ℚ) ≤ (roundHalfEven (q * 100) : ℚ) := by exact_mod_cast hR.1
  have h95 : ((roundHalfEven (q * 100)) : ℚ) ≤ 95 := by exact_mod_cast hR.2
  rw [round2]
  constructor <;> linarith

/-- A modulo-indexed default lookup on a non-empty list is a member. -/
theorem getD_mod_mem (l : List α) (d : α) (k : Nat) (h : l ≠ []) :
    l.getD (k % l.length) d ∈ l := by
  have hlen : 0 < l.length := List.length_pos.mpr h
  have hk : k % l.length < l.length := Nat.mod_lt _ hlen
  rw [List.getD_eq_getElem l d hk]
  exact List.getElem_mem hk

/-- C8: the cache key is a pure function of the (content, kind+phase)
inputs, and a `generatePreview` call that finds its key in the cache returns
the cached result directly, leaving the entire state — cache, history,
filesystem and provider-call counter — untouched (zero provider calls, no
history write). -/
theorem preview_cache_hit_zero_calls (sl : Stdlib) (net : String → NetResult)
    (env : PreviewEnv) (text cx : String) (fuel : Nat) (st : StP) (c : PrevCache)
    (hhit : lookupAssoc (get_cache_key sl.md5hex text "text_preview") st.cache = some c) :
    (∀ c₁ c₂ t₁ t₂ : String, c₁ = c₂ → t₁ = t₂ →
      get_cache_key sl.md5hex c₁ t₁ = get_cache_key sl.md5hex c₂ t₂) ∧
    generate_preview_from_text sl net env text cx fuel st =
      some (.ok ⟨true, c.task_id, "预览生成成功（来自缓存）", c.preview_url, none⟩, st) := by
  constructor
  · intro c₁ c₂ t₁ t₂ h1 h2
    rw [h1, h2]
  · simp only [generate_preview_from_text, hhit]

/-- A cached preview entry for the witness. -/
def cexPrevCache : PrevCache := ⟨"t1", some "/api/models/a.glb", some "/api/previews/a.jpg"⟩

/-- A preview environment whose provider would fail if it were ever
consulted. -/
def cexPrevEnv : PreviewEnv :=
  ⟨some "k", .error "创建预览任务失败: boom", fun _ => .err "x", 7,
   ⟨4/5, [], 0, "2024-01-01T00:00:00"⟩⟩

/-- Witness for C8: with the key warm in the cache the endpoint answers from
it and the state is returned unchanged. -/
theorem preview_cache_hit_zero_calls_witness :
    generate_preview_from_text cexStdlib (fun _ => .connectError) cexPrevEnv
      "a red cube" "medium" 301
      ⟨[(get_cache_key cexStdlib.md5hex "a red cube" "text_preview", cexPrevCache)], [], [], 0⟩ =
      some (.ok ⟨true, cexPrevCache.task_id, "预览生成成功（来自缓存）",
        cexPrevCache.preview_url, none⟩,
        ⟨[(get_cache_key cexStdlib.md5hex "a red cube" "text_preview", cexPrevCache)], [], [], 0⟩) :=
  (preview_cache_hit_zero_calls cexStdlib (fun _ => .connectError) cexPrevEnv
    "a red cube" "medium" 301
    ⟨[(get_cache_key cexStdlib.md5hex "a red cube" "text_preview", cexPrevCache)], [], [], 0⟩
    cexPrevCache (by simp [lookupAssoc])).2

/-- C9: with no valid credential configured and a cold cache,
`generatePreview` answers from the local simulation generator: it returns
`success = true` with the simulated model and preview URLs, caches and
records exactly the simulated result (whose quality score, a rounded
uniform draw from [0.7, 0.95], stays within [0.70, 0.95]), makes zero
provider calls (the call counter and filesystem are untouched), and the
model URL points at one of the locally available `.obj`/`.glb` assets or at
the deterministic `/api/models/<id>.glb` fallback. -/
theorem preview_simulation_fallback (sl : Stdlib) (net : String → NetResult)
    (env : PreviewEnv) (text cx : String) (fuel : Nat) (st : StP)
    (hkey : validKey env.apiKey = false)
    (hmiss : lookupAssoc (get_cache_key sl.md5hex text "text_preview") st.cache = none)
    (hu1 : 7/10 ≤ env.sim.uniform) (hu2 : env.sim.uniform ≤ 19/20) :
    ∃ s : SimResult, s = simulate_3d_generation sl.md5hex env.sim text ∧
      generate_preview_from_text sl net env text cx fuel st =
        some (.ok ⟨true, "preview_" ++ toString env.randNum, "预览生成成功（模拟）",
          some s.model_url, some s.preview_url⟩,
          ⟨putAssoc (get_cache_key sl.md5hex text "text_preview")
              ⟨"preview_" ++ toString env.randNum, some s.model_url, some s.preview_url⟩
              st.cache,
            save_model_to_history st.history
              ⟨"preview_" ++ toString env.randNum, "text", text, none, none, some "preview",
               some s.model_url, some s.preview_url, [("glb", some s.model_url)],
               s.quality_score, none, none, none⟩,
            st.fs, st.calls⟩) ∧
      (7/10 ≤ s.quality_score ∧ s.quality_score ≤ 19/20) ∧
      ((∃ m ∈ env.sim.listing, (m.endsWith ".obj" || m.endsWith ".glb") = true ∧
          s.model_url = "/api/models/" ++ m) ∨
        s.model_url = "/api/models/" ++ s.model_id ++ ".glb") := by
  refine ⟨simulate_3d_generation sl.md5hex env.sim text, rfl, ?_, ?_, ?_⟩
  · simp only [generate_preview_from_text, hmiss, hkey, Bool.false_eq_true, if_false]
  · have hq : (simulate_3d_generation sl.md5hex env.sim text).quality_score =
        round2 env.sim.uniform := rfl
    rw [hq]
    exact round2_bounds env.sim.uniform hu1 hu2
  · by_cases hav : (env.sim.listing.filter
        (fun f => f.endsWith ".obj" || f.endsWith ".glb")).isEmpty = true
    · right
      simp only [simulate_3d_generation, hav, if_true]
    · left
      have hne : env.sim.listing.filter
          (fun f => f.endsWith ".obj" || f.endsWith ".glb") ≠ [] := by
        intro hc
        rw [hc] at hav
        exact hav rfl
      have hmem : (env.sim.listing.filter
          (fun f => f.endsWith ".obj" || f.endsWith ".glb")).getD
          (env.sim.choiceIdx % (env.sim.listing.filter
            (fun f => f.endsWith ".obj" || f.endsWith ".glb")).length) "" ∈
          env.sim.listing.filter (fun f => f.endsWith ".obj" || f.endsWith ".glb") :=
        getD_mod_mem _ _ _ hne
      have hin := List.mem_filter.mp hmem
      refine ⟨(env.sim.listing.filter
          (fun f => f.endsWith ".obj" || f.endsWith ".glb")).getD
          (env.sim.choiceIdx % (env.sim.listing.filter
            (fun f => f.endsWith ".obj" || f.endsWith ".glb")).length) "",
        hin.1, hin.2, ?_⟩
      simp only [simulate_3d_generation, hav, Bool.false_eq_true, if_false]

/-- Witness for C9 at the spec's concrete input: no credential, the prompt
`a red cube` at complexity `medium`, a 0.8 uniform draw and one local model
file on disk. -/
theorem preview_simulation_fallback_witness :
    ∃ s : SimResult,
      s = simulate_3d_generation cexStdlib.md5hex ⟨4/5, ["cube.glb"], 0, "now"⟩ "a red cube" ∧
      generate_preview_from_text cexStdlib (fun _ => .connectError)
        ⟨none, .error "unused", fun _ => .err "x", 3, ⟨4/5, ["cube.glb"], 0, "now"⟩⟩
        "a red cube" "medium" 301 ⟨[], [], [], 0⟩ =
        some (.ok ⟨true, "preview_" ++ toString 3, "预览生成成功（模拟）",
          some s.model_url, some s.preview_url⟩,
          ⟨putAssoc (get_cache_key cexStdlib.md5hex "a red cube" "text_preview")
              ⟨"preview_" ++ toString 3, some s.model_url, some s.preview_url⟩ [],
            save_model_to_history []
              ⟨"preview_" ++ toString 3, "text", "a red cube", none, none, some "preview",
               some s.model_url, some s.preview_url, [("glb", some s.model_url)],
               s.quality_score, none, none, none⟩,
            [], 0⟩) ∧
      (7/10 ≤ s.quality_score ∧ s.quality_score ≤ 19/20) ∧
      ((∃ m ∈ ["cube.glb"], (m.endsWith ".obj" || m.endsWith ".glb") = true ∧
          s.model_url = "/api/models/" ++ m) ∨
        s.model_url = "/api/models/" ++ s.model_id ++ ".glb") :=
  preview_simulation_fallback cexStdlib (fun _ => .connectError)
    ⟨none, .error "unused", fun _ => .err "x", 3, ⟨4/5, ["cube.glb"], 0, "now"⟩⟩
    "a red cube" "medium" 301 ⟨[], [], [], 0⟩
    rfl rfl (by norm_num) (by norm_num)

/-- C1 counterexample: with a valid credential configured and the remote
task creation failing, `generatePreview` does not fall back to the local
simulation generator — it surfaces the failure to the user as an HTTP 500
`预览生成失败` error (and writes neither cache nor history). -/
theorem preview_remote_failure_not_simulated :
    generate_preview_from_text cexStdlib (fun _ => .connectError)
      ⟨some "k", .error "创建预览任务失败: boom", fun _ => .err "x", 7,
       ⟨4/5, [], 0, "now"⟩⟩
      "a red cube" "medium" 301 ⟨[], [], [], 0⟩ =
      some (.httpErr 500 "预览生成失败: 创建预览任务失败: boom", ⟨[], [], [], 1⟩) := by
  rfl

/-- C1 (amended): the simulation fallback exists only for a missing or
placeholder credential.  With a valid credential and a cold cache, every
remote failure — task creation error, provider-reported `FAILED`, a
re-raised status-check error, or the poll timeout — is surfaced to the
caller as an HTTP 500 `预览生成失败` error, with the cache, history and
filesystem left untouched. -/
theorem preview_remote_failure_surfaces_500 (sl : Stdlib) (net : String → NetResult)
    (env : PreviewEnv) (text cx : String) (fuel : Nat) (st : StP)
    (hkey : validKey env.apiKey = true)
    (hmiss : lookupAssoc (get_cache_key sl.md5hex text "text_preview") st.cache = none) :
    (∀ m, env.create = .error m →
      generate_preview_from_text sl net env text cx fuel st =
        some (.httpErr 500 ("预览生成失败: " ++ m),
          ⟨st.cache, st.history, st.fs, st.calls + 1⟩)) ∧
    (∀ tid m c, env.create = .ok tid →
      wait_loop env.resp 300 10 fuel 0 0 0 = some (.raised m c) →
      generate_preview_from_text sl net env text cx fuel st =
        some (.httpErr 500 ("预览生成失败: " ++ m),
          ⟨st.cache, st.history, st.fs, st.calls + 1 + c⟩)) ∧
    (∀ tid e c, env.create = .ok tid →
      wait_loop env.resp 300 10 fuel 0 0 0 = some (.timeout e c) →
      generate_preview_from_text sl net env text cx fuel st =
        some (.httpErr 500 ("预览生成失败: 任务超时: " ++ tid),
          ⟨st.cache, st.history, st.fs, st.calls + 1 + c⟩)) := by
  refine ⟨?_, ?_, ?_⟩
  · intro m hcreate
    simp only [generate_preview_from_text, hmiss, hkey, if_true, hcreate]
  · intro tid m c hcreate hwait
    simp only [generate_preview_from_text, hmiss, hkey, if_true, hcreate, hwait]
  · intro tid e c hcreate hwait
    simp only [generate_preview_from_text, hmiss, hkey, if_true, hcreate, hwait]

/-- Witness for the amended C1: a provider whose refine task reports
`FAILED` at the first poll makes the preview endpoint answer HTTP 500. -/
theorem preview_remote_failure_surfaces_500_witness :
    generate_preview_from_text cexStdlib (fun _ => .connectError)
      ⟨some "k", .ok "t9", fun _ => .ok ⟨none, some "FAILED", some "oops", none, none, none⟩,
       7, ⟨4/5, [], 0, "now"⟩⟩
      "a red cube" "medium" 301 ⟨[], [], [], 0⟩ =
      some (.httpErr 500 ("预览生成失败: " ++ "任务失败: oops"), ⟨[], [], [], 0 + 1 + 1⟩) :=
  (preview_remote_failure_surfaces_500 cexStdlib (fun _ => .connectError)
    ⟨some "k", .ok "t9", fun _ => .ok ⟨none, some "FAILED", some "oops", none, none, none⟩,
     7, ⟨4/5, [], 0, "now"⟩⟩
    "a red cube" "medium" 301 ⟨[], [], [], 0⟩ (by decide) rfl).2.1
    "t9" "任务失败: oops" 1 rfl (by rw [wait_loop]; rfl)

/-- C5: when the provider reports terminal `FAILED` with message
`bad prompt` for a refine task, the refine endpoint fails with an HTTP 500
error carrying that provider message (`精细化失败: 任务失败: bad prompt`),
and the cache, the history table and the filesystem are exactly as before
the call — no history record is written. -/
theorem refine_failed_task_no_history (sl : Stdlib) (net : String → NetResult)
    (env : RefineEnv) (task_id : String) (fuel : Nat) (st : StR) (tid : String)
    (hkey : validKey env.apiKey = true)
    (hmiss : lookupAssoc (get_cache_key sl.md5hex task_id "text_refine") st.cache = none)
    (hcreate : env.create = .ok tid)
    (hresp : env.resp 0 = .ok ⟨none, some "FAILED", some "bad prompt", none, none, none⟩) :
    refine_text_model sl net env task_id (fuel + 1) st =
      some (.httpErr 500 "精细化失败: 任务失败: bad prompt",
        ⟨st.cache, st.history, st.fs, st.calls + 1 + 1⟩) := by
  have hwait : wait_loop env.resp 300 10 (fuel + 1) 0 0 0 =
      some (.raised "任务失败: bad prompt" 1) := by
    rw [wait_loop, hresp]
    rfl
  simp only [refine_text_model, hmiss, hkey, if_true, hcreate, hwait]
  rfl

/-- Witness for C5 at a concrete environment: valid key, cold cache, task
created as `rt1`, first poll reporting `FAILED` with `bad prompt`. -/
theorem refine_failed_task_no_history_witness :
    refine_text_model cexStdlib (fun _ => .connectError)
      ⟨some "k", .ok "rt1",
       fun _ => .ok ⟨none, some "FAILED", some "bad prompt", none, none, none⟩, 9/10⟩
      "t0" 301 ⟨[], [], [], 0⟩ =
      some (.httpErr 500 "精细化失败: 任务失败: bad prompt", ⟨[], [], [], 0 + 1 + 1⟩) :=
  refine_failed_task_no_history cexStdlib (fun _ => .connectError)
    ⟨some "k", .ok "rt1",
     fun _ => .ok ⟨none, some "FAILED", some "bad prompt", none, none, none⟩, 9/10⟩
    "t0" 300 ⟨[], [], [], 0⟩ "rt1" (by decide) rfl rfl rfl
